import Mathlib

/-!
Verification of the WEB_STATIC HTML validation pipeline
(src/utils/html_validator.py and src/utils/constants.py).

The Python functions are shallowly embedded as executable Lean
definitions operating on `String` (whose `data` field is the list of
unicode scalar values, matching Python str code points for the inputs
considered). Machinery from the Python standard library that the module
relies on (str.lower, str.strip, str.find, str.replace with count 1,
substring membership, re.findall existence for the fixed pattern
registry, and the event stream produced by html.parser.HTMLParser on
plain markup) is modelled by small executable functions defined below.
-/

set_option maxRecDepth 100000

/-! ## Python string primitives -/

/-- Lowercasing a string, as Python str.lower does on ASCII input
(Char.toLower maps A-Z to a-z and leaves other characters alone). -/
def pyLower (s : String) : String := String.mk (s.data.map Char.toLower)

/-- Python str.isspace for the ASCII whitespace characters recognised by
str.strip with no argument. -/
def pyIsSpace (c : Char) : Bool :=
  c == ' ' || c == '\t' || c == '\n' || c == '\r' || c == '\x0b' || c == '\x0c'

/-- Python str.strip with no argument: remove leading and trailing
whitespace. -/
def pyStrip (s : String) : String :=
  String.mk (((s.data.dropWhile pyIsSpace).reverse.dropWhile pyIsSpace).reverse)

/-- Boolean test: the first list is a prefix of the second. -/
def strPrefixOf : List Char → List Char → Bool
  | [], _ => true
  | _ :: _, [] => false
  | a :: as, b :: bs => a == b && strPrefixOf as bs

/-- Boolean test: the first list occurs as a contiguous sublist of the
second. Used to model the Python `in` operator on strings. -/
def strInfixOf (sub : List Char) : List Char → Bool
  | [] => strPrefixOf sub []
  | c :: rest => strPrefixOf sub (c :: rest) || strInfixOf sub rest

/-- Python `sub in s` on strings. -/
def pyContains (s sub : String) : Bool := strInfixOf sub.data s.data

/-- Python str.find: index of the first occurrence of `sub`, `none` when
absent (Python returns -1 there; the callers below only use it after a
successful membership test). -/
def pyFindAux (sub : List Char) : List Char → Option Nat
  | [] => if strPrefixOf sub [] then some 0 else none
  | c :: rest =>
    if strPrefixOf sub (c :: rest) then some 0
    else (pyFindAux sub rest).map (· + 1)

/-- Python s.find(sub) wrapped in Option. -/
def pyFind (s sub : String) : Option Nat := pyFindAux sub.data s.data

/-- Python slicing s[a:b] for 0 ≤ a ≤ b. -/
def pySlice (s : String) (a b : Nat) : String :=
  String.mk ((s.data.drop a).take (b - a))

/-- Python s.replace(old, new, 1): replace the first occurrence of `old`
by `new`; the string is returned unchanged when `old` does not occur. -/
def replaceFirst (old new : List Char) : List Char → List Char
  | [] => if strPrefixOf old [] then new else []
  | c :: rest =>
    if strPrefixOf old (c :: rest) then new ++ (c :: rest).drop old.length
    else c :: replaceFirst old new rest

/-- Python s.replace(old, new, 1) on strings. -/
def pyReplace1 (s old new : String) : String :=
  String.mk (replaceFirst old.data new.data s.data)

/-- Number of positions of `s` at which `sub` starts (for the nonempty
patterns used here this counts the occurrences of `sub` in `s`). -/
def countOccAux (sub : List Char) : List Char → Nat
  | [] => 0
  | c :: rest =>
    (if strPrefixOf sub (c :: rest) then 1 else 0) + countOccAux sub rest

/-- Occurrence count of `sub` inside `s`. -/
def countOccurrences (sub s : String) : Nat := countOccAux sub.data s.data

/-- UTF-8 encoded byte length of a string: Python len(s.encode(utf8)). -/
def utf8ByteLen (s : String) : Nat :=
  s.data.foldl (fun n c => n + c.utf8Size) 0

/-! ## constants.py -/

/-- 100 KB soft limit (constants.py, WEB_STATIC_SIZE_SOFT_LIMIT). -/
def WEB_STATIC_SIZE_SOFT_LIMIT : Nat := 100 * 1024

/-- 500 KB hard limit (constants.py, WEB_STATIC_SIZE_HARD_LIMIT). -/
def WEB_STATIC_SIZE_HARD_LIMIT : Nat := 500 * 1024

/-! ## Regular expression model

The pattern registry DANGEROUS_PATTERNS of constants.py uses a small
regex subset: literal characters, the backslash-s whitespace class, dot,
the negated class excluding a closing angle bracket, a quote class, and
the star, plus and question-mark quantifiers, always applied to a single
atom. The matcher below implements exactly that subset; case
insensitivity (re.IGNORECASE) is modelled by lowercasing the haystack
and writing the pattern literals in lowercase. -/

/-- One regex atom of the subset used by DANGEROUS_PATTERNS. -/
inductive RAtom
  | lit (c : Char)
  | spaceCls
  | anyNoNl
  | notChar (c : Char)
  | oneOf (cs : List Char)

/-- A quantified atom. -/
inductive RTok
  | one (a : RAtom)
  | star (a : RAtom)
  | plus (a : RAtom)
  | opt (a : RAtom)

/-- A pattern is a sequence of quantified atoms. -/
abbrev Rx := List RTok

/-- Does the atom match one character. -/
def matchAtom : RAtom → Char → Bool
  | RAtom.lit c, d => c == d
  | RAtom.spaceCls, d =>
    d == ' ' || d == '\t' || d == '\n' || d == '\r' || d == '\x0b' || d == '\x0c'
  | RAtom.anyNoNl, d => !(d == '\n')
  | RAtom.notChar c, d => !(c == d)
  | RAtom.oneOf cs, d => cs.contains d

/-- Backtracking matcher: does the pattern match some prefix of the
character list. The fuel argument only forces structural termination;
every recursive call strictly decreases pattern length plus input
length, so the initial fuel supplied by matchHere is never exhausted. -/
def matchFuel : Nat → Rx → List Char → Bool
  | _, [], _ => true
  | 0, _ :: _, _ => false
  | _ + 1, RTok.one _ :: _, [] => false
  | f + 1, RTok.one a :: r, c :: cs => matchAtom a c && matchFuel f r cs
  | f + 1, RTok.opt _ :: r, [] => matchFuel f r []
  | f + 1, RTok.opt a :: r, c :: cs =>
    matchFuel f r (c :: cs) || (matchAtom a c && matchFuel f r cs)
  | _ + 1, RTok.plus _ :: _, [] => false
  | f + 1, RTok.plus a :: r, c :: cs =>
    matchAtom a c && matchFuel f (RTok.star a :: r) cs
  | f + 1, RTok.star _ :: r, [] => matchFuel f r []
  | f + 1, RTok.star a :: r, c :: cs =>
    matchFuel f r (c :: cs) || (matchAtom a c && matchFuel f (RTok.star a :: r) cs)

/-- Does the pattern match a prefix of the character list. -/
def matchHere (r : Rx) (cs : List Char) : Bool :=
  matchFuel (r.length + cs.length + 1) r cs

/-- Does the pattern match starting at some position of the list. -/
def rxSearchAux (r : Rx) : List Char → Bool
  | [] => matchHere r []
  | c :: rest => matchHere r (c :: rest) || rxSearchAux r rest

/-- Existence of a match of the pattern in the string under
re.IGNORECASE, modelled by lowercasing the haystack. -/
def reSearch (r : Rx) (s : String) : Bool :=
  rxSearchAux r (s.data.map Char.toLower)

/-- A run of literal characters as a pattern fragment. -/
def lits (s : String) : Rx := s.data.map (fun c => RTok.one (RAtom.lit c))

/-- The fixed registry of dangerous patterns (constants.py,
DANGEROUS_PATTERNS), each paired with its Python regex source text.
Literals are written lowercase because reSearch lowercases the
haystack. -/
def DANGEROUS_PATTERNS : List (String × Rx) := [
  ("<iframe", lits "<iframe"),
  ("fetch\\s*\\(", lits "fetch" ++ [RTok.star RAtom.spaceCls, RTok.one (RAtom.lit '(')]),
  ("XMLHttpRequest", lits "xmlhttprequest"),
  ("import\\s+.*from",
    lits "import" ++ [RTok.plus RAtom.spaceCls, RTok.star RAtom.anyNoNl] ++ lits "from"),
  ("<script[^>]*src=",
    lits "<script" ++ [RTok.star (RAtom.notChar '>')] ++ lits "src="),
  ("<link[^>]*href=[\"\x27]https?://",
    lits "<link" ++ [RTok.star (RAtom.notChar '>')] ++ lits "href="
      ++ [RTok.one (RAtom.oneOf ['"', Char.ofNat 39]), ]
      ++ lits "http" ++ [RTok.opt (RAtom.lit 's')] ++ lits "://"),
  ("<img[^>]*src=[\"\x27]https?://",
    lits "<img" ++ [RTok.star (RAtom.notChar '>')] ++ lits "src="
      ++ [RTok.one (RAtom.oneOf ['"', Char.ofNat 39]), ]
      ++ lits "http" ++ [RTok.opt (RAtom.lit 's')] ++ lits "://"),
  ("eval\\s*\\(", lits "eval" ++ [RTok.star RAtom.spaceCls, RTok.one (RAtom.lit '(')]),
  ("Function\\s*\\(", lits "function" ++ [RTok.star RAtom.spaceCls, RTok.one (RAtom.lit '(')]),
  ("localStorage", lits "localstorage"),
  ("sessionStorage", lits "sessionstorage"),
  ("document\\.cookie", lits "document" ++ [RTok.one (RAtom.lit '.')] ++ lits "cookie")
]

/-- scan_dangerous_patterns: one warning per pattern with at least one
match; safe exactly when the warning list is empty. The Python warning
string additionally embeds the match count; that numeral suffix is
elided here (no claim depends on it). -/
def scan_dangerous_patterns (html : String) : Bool × List String :=
  let warnings := DANGEROUS_PATTERNS.filterMap (fun p =>
    if reSearch p.2 html then
      some ("⚠️ Patrón sospechoso detectado: " ++ p.1)
    else none)
  (warnings.isEmpty, warnings)

/-! ## Size classifier (validate_html_size)

The Python function also returns a human-readable message with the size
in KB printed to one decimal place; that floating-point rendering is
elided and only the (valid, level) pair is modelled, which is all the
spec claims reference. -/

/-- validate_html_size: classify the UTF-8 byte length against the two
limits, returning (valid, level). -/
def validate_html_size (content : String) : Bool × String :=
  if utf8ByteLen content > WEB_STATIC_SIZE_HARD_LIMIT then (false, "error")
  else if utf8ByteLen content > WEB_STATIC_SIZE_SOFT_LIMIT then (true, "warning")
  else (true, "ok")

/-! ## Syntax validator (class HTMLSyntaxValidator) -/

/-- HTML5 void elements, never pushed on the stack. -/
def void_elements : List String :=
  ["area", "base", "br", "col", "embed", "hr", "img",
   "input", "link", "meta", "param", "source", "track", "wbr"]

/-- HTML5 elements whose closing tag may be omitted. -/
def optional_close : List String :=
  ["p", "li", "dt", "dd", "option", "tbody", "thead", "tfoot", "tr", "td", "th"]

/-- Parser state: accumulated errors and the open tag stack. The stack
is kept with its TOP at the HEAD of the list (the Python list appends at
the end and scans from the end; the order is reversed here, which
validate_html_syntax_fn compensates for when it reports unclosed tags in
bottom-to-top order). -/
structure ParserState where
  errors : List String
  tag_stack : List String

/-- handle_starttag: lowercase the tag, ignore void elements, push
everything else. -/
def handle_starttag (st : ParserState) (tag0 : String) : ParserState :=
  let tag := pyLower tag0
  if tag ∈ void_elements then st
  else { st with tag_stack := tag :: st.tag_stack }

/-- The mismatched-closing-tag error message. -/
def mismatchMsg (expected found : String) : String :=
  "Tag mal cerrado: esperaba </" ++ expected ++ ">, encontró </" ++ found ++ ">"

/-- The downward walk of handle_endtag: skip optional-close frames above
the matching frame; stop with an error at the first non-optional frame;
on success return the stack below (and excluding) the matching frame.
The nil case is unreachable because the caller only walks after a
successful membership test. -/
def popThrough (tag : String) : List String → Except String (List String)
  | [] => Except.ok []
  | t :: rest =>
    if t = tag then Except.ok rest
    else if t ∈ optional_close then popThrough tag rest
    else Except.error (mismatchMsg t tag)

/-- handle_endtag, translated branch by branch from the Python method:
void end tags are ignored; an end tag on an empty stack errors unless
optional-close; an end tag present in the stack triggers the downward
walk; an absent end tag errors unless optional-close. -/
def handle_endtag (st : ParserState) (tag0 : String) : ParserState :=
  let tag := pyLower tag0
  if tag ∈ void_elements then st
  else if st.tag_stack = [] then
    if tag ∈ optional_close then st
    else { st with errors := st.errors ++ ["Tag de cierre sin apertura: </" ++ tag ++ ">"] }
  else if tag ∈ st.tag_stack then
    match popThrough tag st.tag_stack with
    | Except.ok rest => { st with tag_stack := rest }
    | Except.error e => { st with errors := st.errors ++ [e] }
  else if tag ∈ optional_close then st
  else { st with errors := st.errors ++ ["Tag de cierre sin apertura correspondiente: </" ++ tag ++ ">"] }

/-- The tag events delivered by html.parser.HTMLParser that the
validator reacts to (handle_startendtag is overridden to do nothing, so
self-closing tags are carried as a separate event). -/
inductive HtmlEvent
  | startTag (tag : String)
  | endTag (tag : String)
  | startEndTag (tag : String)

/-- Characters terminating a tag name inside a tag. -/
def isTagSpace (c : Char) : Bool :=
  c == ' ' || c == '\t' || c == '\n' || c == '\r' || c == '\x0c'

/-- The tag name: the run of characters before the first whitespace or
slash of the tag body. -/
def tagNameOf (chars : List Char) : String :=
  String.mk (chars.takeWhile (fun c => !(isTagSpace c || c == '/')))

/-- Build the event for one tag body, detecting self-closing tags by
the trailing slash. -/
def mkTagEvent (isEnd : Bool) (chars : List Char) : HtmlEvent :=
  if isEnd then HtmlEvent.endTag (tagNameOf chars)
  else if chars.getLast? = some '/' then HtmlEvent.startEndTag (tagNameOf chars)
  else HtmlEvent.startTag (tagNameOf chars)

/-- Lexer mode while scanning the document. -/
inductive LexState
  | text
  | seenLt
  | inDecl
  | inTag (isEnd : Bool) (acc : List Char)

/-- Models the tokenization performed by html.parser.HTMLParser on the
plain-markup subset exercised by this module: angle-bracket start and
end tags with optional attributes, self-closing tags, character data,
and declarations or comments (which produce no tag event). -/
def lexAux : List Char → LexState → List HtmlEvent
  | [], _ => []
  | c :: rest, LexState.text =>
    if c == '<' then lexAux rest LexState.seenLt else lexAux rest LexState.text
  | c :: rest, LexState.seenLt =>
    if c == '/' then lexAux rest (LexState.inTag true [])
    else if c.isAlpha then lexAux rest (LexState.inTag false [c])
    else if c == '>' then lexAux rest LexState.text
    else lexAux rest LexState.inDecl
  | c :: rest, LexState.inDecl =>
    if c == '>' then lexAux rest LexState.text else lexAux rest LexState.inDecl
  | c :: rest, LexState.inTag isEnd acc =>
    if c == '>' then mkTagEvent isEnd acc.reverse :: lexAux rest LexState.text
    else lexAux rest (LexState.inTag isEnd (c :: acc))

/-- The event stream of a document. -/
def tokenize (s : String) : List HtmlEvent := lexAux s.data LexState.text

/-- Dispatch one event to the handler methods (handle_startendtag is a
no-op in the source). -/
def handleEvent (st : ParserState) : HtmlEvent → ParserState
  | HtmlEvent.startTag t => handle_starttag st t
  | HtmlEvent.endTag t => handle_endtag st t
  | HtmlEvent.startEndTag _ => st

/-- parser.feed: run all events through the state. -/
def feedEvents : ParserState → List HtmlEvent → ParserState
  | st, [] => st
  | st, e :: es => feedEvents (handleEvent st e) es

/-- validate_html_syntax_fn: empty or whitespace-only content
short-circuits to a single error; otherwise the document is parsed, the
remaining non-optional stack frames are reported bottom-to-top as one
combined unclosed-tags error, and validity is the absence of errors. -/
def validate_html_syntax_fn (html_content : String) : Bool × List String :=
  if pyStrip html_content = "" then (false, ["El contenido HTML está vacío"])
  else
    let parser := feedEvents { errors := [], tag_stack := [] } (tokenize html_content)
    let unclosed_critical_tags :=
      parser.tag_stack.reverse.filter (fun t => decide (t ∉ optional_close))
    let errors :=
      if unclosed_critical_tags = [] then parser.errors
      else parser.errors
        ++ ["Tags críticos sin cerrar: " ++ String.intercalate ", " unclosed_critical_tags]
    (errors.isEmpty, errors)

/-! ## Sanitizer (sanitize_html_for_rendering) -/

/-- The CSP meta element injected by the sanitizer, verbatim from the
triple-quoted Python literal (quotes written with hex escapes). -/
def csp_meta : String :=
  "<meta http-equiv=\"Content-Security-Policy\"\n          content=\"default-src \x27self\x27;\n                   script-src \x27unsafe-inline\x27 \x27unsafe-eval\x27;\n                   style-src \x27unsafe-inline\x27;\n                   img-src data: blob:;\n                   connect-src \x27none\x27;\n                   font-src \x27none\x27;\n                   object-src \x27none\x27;\n                   media-src \x27none\x27;\n                   frame-src \x27none\x27;\">"

/-- sanitize_html_for_rendering: insert the CSP right after the first
case-insensitive literal head tag; otherwise synthesize a head right
after the first case-insensitive literal html tag; otherwise wrap the
whole input in a document skeleton. -/
def sanitize_html_for_rendering (html_content : String) : String :=
  let html_lower := pyLower html_content
  if pyContains html_lower "<head>" then
    let head_pos := (pyFind html_lower "<head>").getD 0
    let head_tag := pySlice html_content head_pos (head_pos + 6)
    pyReplace1 html_content head_tag (head_tag ++ "\n" ++ csp_meta)
  else if pyContains html_lower "<html>" then
    let html_pos := (pyFind html_lower "<html>").getD 0
    let html_tag := pySlice html_content html_pos (html_pos + 6)
    pyReplace1 html_content html_tag (html_tag ++ "\n<head>\n" ++ csp_meta ++ "\n</head>")
  else
    "<!DOCTYPE html>\n<html>\n<head>\n" ++ csp_meta ++ "\n</head>\n<body>\n"
      ++ html_content ++ "\n</body>\n</html>"

/-! ## Orchestrator (validate_web_static_content) -/

/-- The validation verdict dictionary (size_message, a float-formatted
string no claim references, is elided). -/
structure ValidationVerdict where
  is_valid : Bool
  syntax_valid : Bool
  syntax_errors : List String
  size_valid : Bool
  size_level : String
  security_safe : Bool
  security_warnings : List String
  can_save : Bool

/-- validate_web_static_content: compose the three checkers; can_save
is syntax and size, is_valid additionally demands level ok and safety. -/
def validate_web_static_content (html_content : String) : ValidationVerdict :=
  { is_valid := (validate_html_syntax_fn html_content).1
      && ((validate_html_size html_content).2 == "ok")
      && (scan_dangerous_patterns html_content).1,
    syntax_valid := (validate_html_syntax_fn html_content).1,
    syntax_errors := (validate_html_syntax_fn html_content).2,
    size_valid := (validate_html_size html_content).1,
    size_level := (validate_html_size html_content).2,
    security_safe := (scan_dangerous_patterns html_content).1,
    security_warnings := (scan_dangerous_patterns html_content).2,
    can_save := (validate_html_syntax_fn html_content).1 && (validate_html_size html_content).1 }

/-! ## Helper lemmas -/

theorem strPrefixOf_iff (l₁ : List Char) : ∀ l₂, strPrefixOf l₁ l₂ = true ↔ l₁ <+: l₂ := by
  induction l₁ with
  | nil =>
    intro l₂
    simp [strPrefixOf, List.nil_prefix]
  | cons a as ih =>
    intro l₂
    cases l₂ with
    | nil => simp [strPrefixOf]
    | cons b bs => simp [strPrefixOf, List.cons_prefix_cons, ih, beq_iff_eq]

theorem strInfixOf_iff (sub : List Char) : ∀ s, strInfixOf sub s = true ↔ sub <:+: s := by
  intro s
  induction s with
  | nil =>
    simp [strInfixOf, strPrefixOf_iff, List.infix_nil, List.prefix_nil]
  | cons c rest ih =>
    simp [strInfixOf, strPrefixOf_iff, ih, List.infix_cons_iff]

theorem replaceFirst_has_new (old new : List Char) :
    ∀ s : List Char, old <:+: s → new <:+: replaceFirst old new s := by
  intro s
  induction s with
  | nil =>
    intro h
    rw [List.infix_nil] at h
    subst h
    simp [replaceFirst, strPrefixOf]
  | cons c rest ih =>
    intro h
    by_cases hp : strPrefixOf old (c :: rest) = true
    · simp only [replaceFirst, if_pos hp]
      exact (List.prefix_append new _).isInfix
    · simp only [replaceFirst, if_neg hp]
      have hr : old <:+: rest := by
        rcases List.infix_cons_iff.mp h with hpre | hinf
        · exact absurd ((strPrefixOf_iff old _).mpr hpre) hp
        · exact hinf
      exact List.infix_cons (ih hr)

theorem slice_infix (l : List Char) (a k : Nat) : (l.drop a).take k <:+: l := by
  refine ⟨l.take a, (l.drop a).drop k, ?_⟩
  rw [List.append_assoc, List.take_append_drop, List.take_append_drop]

theorem pySlice_infix_self (s : String) (a b : Nat) : (pySlice s a b).data <:+: s.data :=
  slice_infix s.data a (b - a)

theorem pyContains_of_infix {s sub : String} (h : sub.data <:+: s.data) :
    pyContains s sub = true :=
  (strInfixOf_iff sub.data s.data).mpr h

theorem infix_append_left {l x : List Char} (y : List Char) (h : l <:+: x) : l <:+: x ++ y :=
  h.trans (List.prefix_append x y).isInfix

theorem csp_infix_data (pre : List Char) : csp_meta.data <:+: pre ++ csp_meta.data :=
  (List.suffix_append pre csp_meta.data).isInfix

theorem csp_suffix_pre (pre : String) : csp_meta.data <:+: (pre ++ csp_meta).data := by
  rw [String.data_append]
  exact csp_infix_data pre.data

theorem csp_infix_mid (pre post : String) :
    csp_meta.data <:+: (pre ++ csp_meta ++ post).data := by
  rw [String.data_append, String.data_append]
  exact infix_append_left post.data (csp_infix_data pre.data)

theorem replace_branch_infix (s ht new : String)
    (hnew : csp_meta.data <:+: new.data) (hti : ht.data <:+: s.data) :
    pyContains (pyReplace1 s ht new) csp_meta = true := by
  apply pyContains_of_infix
  show csp_meta.data <:+: replaceFirst ht.data new.data s.data
  exact hnew.trans (replaceFirst_has_new ht.data new.data s.data hti)

theorem foldl_utf8_replicate (n : Nat) : ∀ acc : Nat,
    List.foldl (fun m c => m + c.utf8Size) acc (List.replicate n 'a') = acc + n := by
  induction n with
  | zero => intro acc; simp
  | succ k ih =>
    intro acc
    rw [List.replicate_succ, List.foldl_cons, ih]
    have h1 : Char.utf8Size 'a' = 1 := by decide
    rw [h1]
    omega

theorem utf8ByteLen_replicate_a (n : Nat) :
    utf8ByteLen (String.mk (List.replicate n 'a')) = n := by
  have h := foldl_utf8_replicate n 0
  simpa [utf8ByteLen] using h

theorem size_level_ok_valid (s : String)
    (h : (validate_html_size s).2 = "ok") : (validate_html_size s).1 = true := by
  simp only [validate_html_size] at h ⊢
  by_cases h1 : utf8ByteLen s > WEB_STATIC_SIZE_HARD_LIMIT
  · rw [if_pos h1] at h
    exact absurd h (by decide)
  · rw [if_neg h1]
    split <;> rfl

theorem size_le_hard_valid (s : String)
    (h : utf8ByteLen s ≤ WEB_STATIC_SIZE_HARD_LIMIT) : (validate_html_size s).1 = true := by
  simp only [validate_html_size]
  rw [if_neg (by omega)]
  split <;> rfl

theorem popThrough_stops (tag t₀ : String) (rest : List String) :
    ∀ opts : List String,
    (∀ x ∈ opts, x ∈ optional_close ∧ x ≠ tag) →
    t₀ ∉ optional_close → t₀ ≠ tag →
    popThrough tag (opts ++ t₀ :: rest) = Except.error (mismatchMsg t₀ tag) := by
  intro opts
  induction opts with
  | nil =>
    intro _ h1 h2
    simp only [List.nil_append, popThrough]
    rw [if_neg h2, if_neg h1]
  | cons a as ih =>
    intro hopts h1 h2
    obtain ⟨ha1, ha2⟩ := hopts a (List.mem_cons_self a as)
    simp only [List.cons_append, popThrough]
    rw [if_neg ha2, if_pos ha1]
    exact ih (fun x hx => hopts x (List.mem_cons_of_mem a hx)) h1 h2

theorem popThrough_pops (tag : String) (below : List String) :
    ∀ opts : List String,
    (∀ x ∈ opts, x ∈ optional_close ∧ x ≠ tag) →
    popThrough tag (opts ++ tag :: below) = Except.ok below := by
  intro opts
  induction opts with
  | nil =>
    intro _
    simp [popThrough]
  | cons a as ih =>
    intro hopts
    obtain ⟨ha1, ha2⟩ := hopts a (List.mem_cons_self a as)
    simp only [List.cons_append, popThrough]
    rw [if_neg ha2, if_pos ha1]
    exact ih (fun x hx => hopts x (List.mem_cons_of_mem a hx))

/-! ## Claim theorems -/

/-- Claim C1: for every input string, the verdict returned by
validate_web_static_content satisfies can_save = syntax_valid AND
size_valid, and is_valid = syntax_valid AND size_level equals ok AND
security_safe. -/
theorem claim_C1_verdict_invariants (s : String) :
    (validate_web_static_content s).can_save
      = ((validate_web_static_content s).syntax_valid
          && (validate_web_static_content s).size_valid)
    ∧ (validate_web_static_content s).is_valid
      = ((validate_web_static_content s).syntax_valid
          && ((validate_web_static_content s).size_level == "ok")
          && (validate_web_static_content s).security_safe) :=
  ⟨rfl, rfl⟩

/-- Claim C2: size classification is by UTF-8 byte length against the
soft limit 102400 and the hard limit 512000; exactly 102400 bytes is
level ok, 102401 bytes is valid with level warning, exactly 512000
bytes is valid with level warning, and 512001 bytes is invalid with
level error. -/
theorem claim_C2_size_classification :
    (WEB_STATIC_SIZE_SOFT_LIMIT = 102400 ∧ WEB_STATIC_SIZE_HARD_LIMIT = 512000)
    ∧ (∀ s : String, utf8ByteLen s = 102400 → validate_html_size s = (true, "ok"))
    ∧ (∀ s : String, utf8ByteLen s = 102401 → validate_html_size s = (true, "warning"))
    ∧ (∀ s : String, utf8ByteLen s = 512000 → validate_html_size s = (true, "warning"))
    ∧ (∀ s : String, utf8ByteLen s = 512001 → validate_html_size s = (false, "error")) := by
  refine ⟨⟨rfl, rfl⟩, ?_, ?_, ?_, ?_⟩ <;>
    · intro s h
      simp only [validate_html_size, h]
      decide

/-- Witness for C2 at concrete all-ASCII contents of the four exact
byte sizes. -/
theorem claim_C2_witness :
    validate_html_size (String.mk (List.replicate 102400 'a')) = (true, "ok")
    ∧ validate_html_size (String.mk (List.replicate 102401 'a')) = (true, "warning")
    ∧ validate_html_size (String.mk (List.replicate 512000 'a')) = (true, "warning")
    ∧ validate_html_size (String.mk (List.replicate 512001 'a')) = (false, "error") :=
  ⟨claim_C2_size_classification.2.1 _ (utf8ByteLen_replicate_a 102400),
   claim_C2_size_classification.2.2.1 _ (utf8ByteLen_replicate_a 102401),
   claim_C2_size_classification.2.2.2.1 _ (utf8ByteLen_replicate_a 512000),
   claim_C2_size_classification.2.2.2.2 _ (utf8ByteLen_replicate_a 512001)⟩

/-- Claim C3: whenever the syntax check passes and the UTF-8 byte size
does not exceed the hard limit, the verdict has can_save true
regardless of security findings; in particular balanced content
containing a call of eval yields can_save true and is_valid false. -/
theorem claim_C3_cansave_ignores_security :
    (∀ s : String, (validate_html_syntax_fn s).1 = true →
        utf8ByteLen s ≤ WEB_STATIC_SIZE_HARD_LIMIT →
        (validate_web_static_content s).can_save = true)
    ∧ (validate_web_static_content "<div>eval(1)</div>").can_save = true
    ∧ (validate_web_static_content "<div>eval(1)</div>").is_valid = false
    ∧ (validate_web_static_content "<div>eval(1)</div>").security_safe = false := by
  refine ⟨?_, by decide, by decide, by decide⟩
  intro s h1 h2
  show ((validate_html_syntax_fn s).1 && (validate_html_size s).1) = true
  rw [h1, size_le_hard_valid s h2]
  rfl

/-- Witness for C3 at the balanced eval-containing content. -/
theorem claim_C3_witness :
    (validate_html_syntax_fn "<div>eval(1)</div>").1 = true
    ∧ utf8ByteLen "<div>eval(1)</div>" ≤ WEB_STATIC_SIZE_HARD_LIMIT
    ∧ (validate_web_static_content "<div>eval(1)</div>").can_save = true :=
  ⟨by decide, by decide,
   claim_C3_cansave_ignores_security.1 "<div>eval(1)</div>" (by decide) (by decide)⟩

/-- Claim C4: when an end tag matches a frame of the stack and some
frame strictly above it is not optional-close, handle_endtag appends
one mismatched-closing-tag error (naming the topmost non-optional frame
above the match) and pops nothing; consequently the div-span-div
document yields the mismatch error and reports span among the unclosed
critical tags. The stack is written top-at-head: opts are the
optional-close frames above the first non-optional frame t0, and the
matched frame is the tag occurrence after mid. -/
theorem claim_C4_mismatch_stops_without_pop :
    (∀ (st : ParserState) (tag t₀ : String) (opts mid below : List String),
      pyLower tag = tag →
      tag ∉ void_elements →
      st.tag_stack = opts ++ t₀ :: (mid ++ tag :: below) →
      (∀ x ∈ opts, x ∈ optional_close ∧ x ≠ tag) →
      t₀ ∉ optional_close →
      t₀ ≠ tag →
      handle_endtag st tag
        = { errors := st.errors ++ [mismatchMsg t₀ tag], tag_stack := st.tag_stack })
    ∧ validate_html_syntax_fn "<div><span></div>"
        = (false, ["Tag mal cerrado: esperaba </span>, encontró </div>",
                   "Tags críticos sin cerrar: div, span"]) := by
  constructor
  · intro st tag t₀ opts mid below hlow hvoid hstack hopts h1 h2
    have hmem : tag ∈ st.tag_stack := by
      rw [hstack]; simp
    have hne : ¬ st.tag_stack = [] := by
      rw [hstack]; cases opts <;> simp
    simp only [handle_endtag, hlow]
    rw [if_neg hvoid, if_neg hne, if_pos hmem, hstack,
      popThrough_stops tag t₀ (mid ++ tag :: below) opts hopts h1 h2]
  · decide

/-- Witness for C4: closing div while span is open on the concrete
stack records the mismatch error and leaves the stack unchanged. -/
theorem claim_C4_witness :
    handle_endtag { errors := [], tag_stack := ["span", "div"] } "div"
      = { errors := [mismatchMsg "span" "div"], tag_stack := ["span", "div"] } :=
  claim_C4_mismatch_stops_without_pop.1
    { errors := [], tag_stack := ["span", "div"] } "div" "span" [] [] []
    (by decide) (by decide) rfl (by decide) (by decide) (by decide)

/-- Claim C5: when an end tag matches a frame and every frame strictly
above it is optional-close, handle_endtag pops the stack through and
including the matched frame without recording any error; consequently
the ul-li-li document yields zero syntax errors. -/
theorem claim_C5_optional_frames_popped :
    (∀ (st : ParserState) (tag : String) (opts below : List String),
      pyLower tag = tag →
      tag ∉ void_elements →
      st.tag_stack = opts ++ tag :: below →
      (∀ x ∈ opts, x ∈ optional_close ∧ x ≠ tag) →
      handle_endtag st tag = { errors := st.errors, tag_stack := below })
    ∧ validate_html_syntax_fn "<ul><li>a<li>b</ul>" = (true, []) := by
  constructor
  · intro st tag opts below hlow hvoid hstack hopts
    have hmem : tag ∈ st.tag_stack := by
      rw [hstack]; simp
    have hne : ¬ st.tag_stack = [] := by
      rw [hstack]; cases opts <;> simp
    simp only [handle_endtag, hlow]
    rw [if_neg hvoid, if_neg hne, if_pos hmem, hstack,
      popThrough_pops tag below opts hopts]
  · decide

/-- Witness for C5: closing ul over two open li frames pops all three
frames silently. -/
theorem claim_C5_witness :
    handle_endtag { errors := [], tag_stack := ["li", "li", "ul"] } "ul"
      = { errors := [], tag_stack := [] } :=
  claim_C5_optional_frames_popped.1
    { errors := [], tag_stack := ["li", "li", "ul"] } "ul" ["li", "li"] []
    (by decide) (by decide) rfl (by decide)

/-- Claim C6: every sanitizer output contains the CSP meta element, and
the three-case injection rule holds on the two concrete documents: the
html-only document gets exactly one CSP element inside a synthesized
head, and the bare fragment is wrapped into a doctype document carrying
the CSP. -/
theorem claim_C6_sanitize_always_injects_csp :
    (∀ s : String, pyContains (sanitize_html_for_rendering s) csp_meta = true)
    ∧ sanitize_html_for_rendering "<html><body>hi</body></html>"
        = "<html>" ++ "\n<head>\n" ++ csp_meta ++ "\n</head>" ++ "<body>hi</body></html>"
    ∧ countOccurrences csp_meta
        (sanitize_html_for_rendering "<html><body>hi</body></html>") = 1
    ∧ sanitize_html_for_rendering "<p>hi</p>"
        = "<!DOCTYPE html>\n<html>\n<head>\n" ++ csp_meta ++ "\n</head>\n<body>\n"
            ++ "<p>hi</p>" ++ "\n</body>\n</html>"
    ∧ countOccurrences csp_meta (sanitize_html_for_rendering "<p>hi</p>") = 1 := by
  refine ⟨?_, by decide, by decide, by decide, by decide⟩
  intro s
  simp only [sanitize_html_for_rendering]
  by_cases h1 : pyContains (pyLower s) "<head>" = true
  · rw [if_pos h1]
    exact replace_branch_infix s _ _ (csp_suffix_pre _) (pySlice_infix_self s _ _)
  · rw [if_neg h1]
    by_cases h2 : pyContains (pyLower s) "<html>" = true
    · rw [if_pos h2]
      exact replace_branch_infix s _ _ (csp_infix_mid _ "\n</head>") (pySlice_infix_self s _ _)
    · rw [if_neg h2]
      apply pyContains_of_infix
      rw [String.data_append, String.data_append, String.data_append, String.data_append]
      exact infix_append_left _ (infix_append_left _ (infix_append_left _
        (csp_infix_data _)))

/-- Claim C7: the sanitizer is not idempotent: sanitizing a fragment
once injects one CSP element, and sanitizing the result again (it now
contains a literal head tag) yields two CSP elements. -/
theorem claim_C7_sanitize_not_idempotent :
    countOccurrences csp_meta (sanitize_html_for_rendering "<p>hi</p>") = 1
    ∧ countOccurrences csp_meta
        (sanitize_html_for_rendering (sanitize_html_for_rendering "<p>hi</p>")) = 2 := by
  constructor <;> decide

/-- Claim C8: an input that is empty or consists only of whitespace
makes the syntax check return invalid with exactly one
empty-content error, and the full verdict has can_save false. -/
theorem claim_C8_empty_input (s : String) (h : s.data.all pyIsSpace = true) :
    validate_html_syntax_fn s = (false, ["El contenido HTML está vacío"])
    ∧ (validate_web_static_content s).can_save = false := by
  have h1 : s.data.dropWhile pyIsSpace = [] :=
    List.dropWhile_eq_nil_iff.mpr (fun x hx => List.all_eq_true.mp h x hx)
  have hstrip : pyStrip s = "" := by
    unfold pyStrip
    rw [h1]
    rfl
  have hsyn : validate_html_syntax_fn s = (false, ["El contenido HTML está vacío"]) := by
    unfold validate_html_syntax_fn
    rw [if_pos hstrip]
  refine ⟨hsyn, ?_⟩
  show ((validate_html_syntax_fn s).1 && (validate_html_size s).1) = false
  rw [hsyn]
  rfl

/-- Witness for C8 at a whitespace-only input. -/
theorem claim_C8_witness :
    validate_html_syntax_fn "   " = (false, ["El contenido HTML está vacío"])
    ∧ (validate_web_static_content "   ").can_save = false :=
  claim_C8_empty_input "   " (by decide)

/-- Claim C9: is_valid implies can_save: a level-ok size is only
produced together with size_valid, so the is_valid conjunction entails
the can_save conjunction. -/
theorem claim_C9_isvalid_implies_cansave (s : String)
    (h : (validate_web_static_content s).is_valid = true) :
    (validate_web_static_content s).can_save = true := by
  have h' : ((validate_html_syntax_fn s).1
      && ((validate_html_size s).2 == "ok")
      && (scan_dangerous_patterns s).1) = true := h
  rw [Bool.and_eq_true, Bool.and_eq_true] at h'
  obtain ⟨⟨hs, hl⟩, _⟩ := h'
  show ((validate_html_syntax_fn s).1 && (validate_html_size s).1) = true
  rw [hs, size_level_ok_valid s (eq_of_beq hl)]
  rfl

/-- Witness for C9 at a small fully valid document. -/
theorem claim_C9_witness :
    (validate_web_static_content "<div>hi</div>").is_valid = true
    ∧ (validate_web_static_content "<div>hi</div>").can_save = true :=
  ⟨by decide, claim_C9_isvalid_implies_cansave "<div>hi</div>" (by decide)⟩

/-- Claim C10: the sanitizer detects head and html only as the literal
six-character substrings (case-insensitively); when neither occurs the
whole input is wrapped in a new document skeleton, so an html tag
carrying attributes is wrapped and the output nests two html
elements. -/
theorem claim_C10_literal_tag_detection :
    (∀ s : String,
      pyContains (pyLower s) "<head>" = false →
      pyContains (pyLower s) "<html>" = false →
      sanitize_html_for_rendering s
        = "<!DOCTYPE html>\n<html>\n<head>\n" ++ csp_meta ++ "\n</head>\n<body>\n"
            ++ s ++ "\n</body>\n</html>")
    ∧ countOccurrences "<html"
        (sanitize_html_for_rendering "<html lang=\"en\"><body>hi</body></html>") = 2 := by
  constructor
  · intro s h1 h2
    simp only [sanitize_html_for_rendering]
    rw [if_neg (by simp [h1]), if_neg (by simp [h2])]
  · decide

/-- Witness for C10 at an html tag carrying an attribute: neither
injection case applies and the full input is wrapped. -/
theorem claim_C10_witness :
    pyContains (pyLower "<html lang=\"en\"><body>hi</body></html>") "<head>" = false
    ∧ pyContains (pyLower "<html lang=\"en\"><body>hi</body></html>") "<html>" = false
    ∧ sanitize_html_for_rendering "<html lang=\"en\"><body>hi</body></html>"
        = "<!DOCTYPE html>\n<html>\n<head>\n" ++ csp_meta ++ "\n</head>\n<body>\n"
            ++ "<html lang=\"en\"><body>hi</body></html>" ++ "\n</body>\n</html>" :=
  ⟨by decide, by decide,
   claim_C10_literal_tag_detection.1 "<html lang=\"en\"><body>hi</body></html>"
     (by decide) (by decide)⟩
